import Mathlib

/-!
Verification of the MyPrecious backfill/ingestion engine.

Shallow embedding of the core components (`data_validator.py`,
`rate_limiter.py`, `backfill_models.py`, `symbol_processor.py`,
`backfill_orchestrator.py`, `statistics_tracker.py`) and proofs of the
specification claims about them.

Modelling conventions:
* Python floats are modelled as rationals (`ℚ`), Python ints as `ℤ`/`ℕ`.
* `None` becomes `Option.none`.
* Wall-clock timestamps and dates are abstract numbers supplied as
  parameters; calls to `time.time()`/`datetime.now()` are threaded in
  explicitly where their value matters and dropped where it does not.
* `datetime.fromisoformat` (Python standard library, outside the repo) is
  abstracted as a caller-supplied predicate `parses : String → Bool`
  telling which timestamp strings parse.
* Logging and `time.sleep` calls are pure no-ops and are omitted.
* Database side effects (UPDATE statements) are modelled as pure functions
  on row values where a claim needs them, and omitted where only the
  returned value matters.
-/

namespace MyPrecious

/-! ## fetcher.py: PriceData

`PriceData.__init__(timestamp, open, high, low, close, volume)`.
The annotations say `str`/`float`/`int` but the validator (and its tests)
feed `None` for any field, so every field is optional here. -/

structure PriceData where
  timestamp : Option String
  «open» : Option ℚ
  high : Option ℚ
  low : Option ℚ
  close : Option ℚ
  volume : Option ℤ
deriving Repr, DecidableEq

/-! ## data_validator.py -/

structure ValidationResult where
  valid : Bool
  errors : List String
deriving Repr, DecidableEq

/-- Python truthiness test `not price.timestamp`: true for `None` and for
the empty string (the only falsy values a `str`-or-`None` field can hold). -/
def timestampFalsy (p : PriceData) : Bool :=
  match p.timestamp with
  | none => true
  | some s => s = ""

/-- `DataValidator._validate_ohlc_consistency`, at the point where the three
OHLC values have been matched out of their options.  The source reads the
fields off the record; `validate_price_record` only reaches the two
`close` comparisons with `close` present, and that value is passed here
directly. -/
def ohlcConsistencyErrors (o h l c : ℚ) : List String :=
  if o = 0 ∨ h = 0 ∨ l = 0 then []
  else
    (if h < l then [s!"High ({h}) must be >= low ({l})"] else [])
    ++ (if h < o then [s!"High ({h}) must be >= open ({o})"] else [])
    ++ (if h < c then [s!"High ({h}) must be >= close ({c})"] else [])
    ++ (if l > o then [s!"Low ({l}) must be <= open ({o})"] else [])
    ++ (if l > c then [s!"Low ({l}) must be <= close ({c})"] else [])

/-- `DataValidator.validate_price_record`.  `parses` stands for
"`datetime.fromisoformat` succeeds on this string"; the Python error
message also embeds the exception text, which the abstraction drops. -/
def validate_price_record (parses : String → Bool) (p : PriceData) :
    ValidationResult :=
  let missing :=
    (if timestampFalsy p then ["Missing timestamp"] else [])
    ++ (if p.close = none then ["Missing close price"] else [])
    ++ (if p.volume = none then ["Missing volume"] else [])
  if missing ≠ [] then ⟨false, missing⟩
  else
    -- here `close`, `volume` are present and `timestamp` is a nonempty string
    let c := p.close.getD 0
    let v := p.volume.getD 0
    let ts := p.timestamp.getD ""
    let errors :=
      (if c ≤ 0 then [s!"Close price must be positive, got {c}"] else [])
      ++ (if v < 0 then [s!"Volume must be non-negative, got {v}"] else [])
      ++ (if parses ts then [] else [s!"Invalid timestamp format: {ts}"])
      ++ (match p.«open», p.high, p.low with
          | some o, some h, some l => ohlcConsistencyErrors o h l c
          | _, _, _ => [])
    ⟨errors.length = 0, errors⟩

/-- `DataValidator.calculate_completeness`. -/
def calculate_completeness (expected_days : ℤ) (actual_records : ℤ) : ℚ :=
  if expected_days ≤ 0 then 0
  else min ((actual_records : ℚ) / (expected_days : ℚ) * 100) 100

/-! ## rate_limiter.py -/

/-- `RateLimiter._cleanup_old_timestamps`: keeps the timestamps with
`ts > current_time - 3600`. -/
def cleanup_old_timestamps (current_time : ℚ) (request_timestamps : List ℚ) :
    List ℚ :=
  request_timestamps.filter (fun ts => current_time - 3600 < ts)

/-- `RateLimiter.handle_rate_limit_error`: the returned backoff delay
(the `time.sleep(delay)` is a no-op here). -/
def handle_rate_limit_error (attempt : ℕ) : ℕ :=
  5 * 2 ^ (attempt - 1)

/-- `SymbolProcessor._calculate_backoff_delay`. -/
def calculate_backoff_delay (attempt : ℕ) : ℕ :=
  5 * 2 ^ (attempt - 1)

/-! ## backfill_models.py -/

/-- `BackfillTask` dataclass; dates are day numbers, `retry_after` an
abstract timestamp. -/
structure BackfillTask where
  id : ℕ
  asset_id : Option ℕ
  symbol : String
  start_date : ℤ
  end_date : ℤ
  status : String
  attempts : ℕ
  retry_after : Option ℤ
deriving Repr, DecidableEq

/-- `ProcessingResult` dataclass.  `records_skipped` is an `ℤ` because the
source computes it as a difference of counts. -/
structure ProcessingResult where
  symbol : String
  success : Bool
  records_inserted : ℕ
  records_skipped : ℤ
  completeness_pct : ℚ
  duration_seconds : ℚ
  error_message : Option String
deriving Repr, DecidableEq

/-- `BackfillReport` dataclass. -/
structure BackfillReport where
  total_symbols : ℕ
  successful : ℕ
  failed : ℕ
  total_records_inserted : ℕ
  total_duration_seconds : ℚ
  start_time : ℤ
  end_time : ℤ
  failed_symbols : List String
deriving Repr, DecidableEq

/-! ## symbol_processor.py

`SymbolProcessor.process(task)` runs inside one big `try`.  Everything the
`except` clauses can classify is captured by `PyExc`; the outcomes of the
two fallible collaborator calls (`fetcher.fetch_historical` and the
storage step) are supplied by a `ProcessEnv`.  The elapsed-time reads
(`time.time() - start_time`) are abstracted into one `duration` value.
Database status updates (`update_queue_status`, `_update_retry_after`)
swallow their own errors in the source and do not influence the returned
`ProcessingResult`; they are omitted from the returned value. -/

/-- The exception taxonomy visible to `process`'s `except` clauses:
`requests.exceptions.Timeout`, other `requests.exceptions.RequestException`
(with the status code of the attached response, if any), `psycopg2.Error`,
and any other `Exception`. -/
inductive PyExc where
  | timeout (msg : String)
  | requestError (status : Option ℕ) (msg : String)
  | pgError (msg : String)
  | otherError (msg : String)
deriving Repr, DecidableEq

/-- The message carried by an exception (Python's `str(e)`). -/
def PyExc.msgOf : PyExc → String
  | .timeout m => m
  | .requestError _ m => m
  | .pgError m => m
  | .otherError m => m

/-- Outcome of `self.fetcher.fetch_historical(...)`. -/
inductive FetchOutcome where
  | raises (e : PyExc)
  | noData
  | data (prices : List PriceData)
deriving Repr, DecidableEq

/-- Outcome of `self.db_loader.load_asset_prices(asset_data)` (together
with the adjacent `update_tracked_asset_timestamp` call, which can raise
into the same handler). -/
inductive StoreOutcome where
  | raises (e : PyExc)
  | ok (inserted : ℕ)
deriving Repr, DecidableEq

/-- One run's collaborator behaviour. -/
structure ProcessEnv where
  fetch : FetchOutcome
  store : StoreOutcome
  duration : ℚ
deriving Repr, DecidableEq

/-- The failed `ProcessingResult` shape every error branch of `process`
builds: `success=False`, zero counters, the branch's error message. -/
def failedProcessingResult (symbol : String) (duration : ℚ) (msg : String) :
    ProcessingResult :=
  ⟨symbol, false, 0, 0, 0, duration, some msg⟩

/-- The body of `SymbolProcessor.process`'s `try` block: either a normal
return, or an uncaught exception that falls to the `except` clauses.
The inner `try ... except psycopg2.Error` around the storage step is the
`StoreOutcome.raises (.pgError _)` case; any other exception raised there
propagates outward. -/
def processBody (parses : String → Bool) (env : ProcessEnv)
    (task : BackfillTask) : Except PyExc ProcessingResult :=
  match env.fetch with
  | .raises e => .error e
  | .noData =>
      .ok (failedProcessingResult task.symbol env.duration
        s!"Failed to fetch data for {task.symbol} - API returned no data")
  | .data prices =>
      let valid_prices :=
        prices.filter (fun p => (validate_price_record parses p).valid)
      let invalid_count : ℤ := prices.length - valid_prices.length
      let stored : Except PyExc (ℕ × ℤ) :=
        if valid_prices.length ≠ 0 then
          match env.store with
          | .raises (.pgError m) =>
              .error (.pgError m)
          | .raises e => .error e
          | .ok n => .ok (n, (valid_prices.length : ℤ) - n)
        else .ok (0, 0)
      match stored with
      | .error (.pgError m) =>
          .ok (failedProcessingResult task.symbol env.duration
            s!"Database error storing {task.symbol}: {m}")
      | .error e => .error e
      | .ok (records_inserted, records_skipped) =>
          -- Python: `int(days_requested * 252 / 365)` truncates toward zero
          let days_requested := task.end_date - task.start_date
          let expected_trading_days := Int.tdiv (days_requested * 252) 365
          let completeness_pct :=
            calculate_completeness expected_trading_days valid_prices.length
          .ok ⟨task.symbol, true, records_inserted,
               records_skipped + invalid_count, completeness_pct,
               env.duration, none⟩

/-- The `except` clauses at the foot of `process`, mapping a caught
exception to the failed `ProcessingResult` each clause returns. -/
def processHandler (env : ProcessEnv) (task : BackfillTask) (e : PyExc) :
    ProcessingResult :=
  match e with
  | .timeout m =>
      failedProcessingResult task.symbol env.duration
        s!"Timeout fetching {task.symbol}: {m}"
  | .requestError status m =>
      if status = some 429 then
        let attempt := task.attempts + 1
        failedProcessingResult task.symbol env.duration
          s!"Rate limited (attempt {attempt})"
      else
        failedProcessingResult task.symbol env.duration
          s!"Network error fetching {task.symbol}: {m}"
  | .pgError m =>
      failedProcessingResult task.symbol env.duration
        s!"Unexpected error processing {task.symbol}: {m}"
  | .otherError m =>
      failedProcessingResult task.symbol env.duration
        s!"Unexpected error processing {task.symbol}: {m}"

/-- `SymbolProcessor.process`: the `try` body with its `except` clauses.
A result of `.error e` would mean an exception escaped `process`. -/
def process (parses : String → Bool) (env : ProcessEnv)
    (task : BackfillTask) : Except PyExc ProcessingResult :=
  match processBody parses env task with
  | .ok r => .ok r
  | .error e => .ok (processHandler env task e)

/-- The environments in which an error arises while processing (the claim's
list: fetch raising, fetch returning no data, or the storage step raising
once there is something to store). -/
def isErrorEnv (parses : String → Bool) (env : ProcessEnv) : Prop :=
  match env.fetch with
  | .raises _ => True
  | .noData => True
  | .data prices =>
      (prices.filter (fun p => (validate_price_record parses p).valid)).length ≠ 0
      ∧ ∃ e, env.store = .raises e

/-! ## backfill_orchestrator.py -/

/-- One row of the `backfill_queue` table joined with its asset's symbol,
as selected by `get_pending_backfills`.  `max_attempts` is a column of the
collaborator-owned schema (not set by any insert in the source, so it
carries the schema default). -/
structure QueueRow where
  id : ℕ
  asset_id : ℕ
  symbol : String
  start_date : ℤ
  end_date : ℤ
  status : String
  attempts : ℕ
  max_attempts : ℕ
  retry_after : Option ℤ
  error_message : Option String
  created_at : ℤ
deriving Repr, DecidableEq

/-- The `WHERE` clause of `get_pending_backfills`'s query:
`status = 'pending' OR (status = 'failed' AND attempts < max_attempts) OR
(status = 'rate_limited' AND (retry_after IS NULL OR retry_after <= NOW()))`. -/
def pendingWhere (now : ℤ) (r : QueueRow) : Bool :=
  r.status == "pending"
  || (r.status == "failed" && decide (r.attempts < r.max_attempts))
  || (r.status == "rate_limited"
      && match r.retry_after with
         | none => true
         | some t => decide (t ≤ now))

/-- `get_pending_backfills`, at the level of table rows: the rows matching
the `WHERE` clause, ordered by `created_at ASC`. -/
def pendingRows (now : ℤ) (table : List QueueRow) : List QueueRow :=
  (table.filter (pendingWhere now)).mergeSort
    (fun a b => a.created_at ≤ b.created_at)

/-- The `BackfillTask` built from one selected row. -/
def rowToTask (r : QueueRow) : BackfillTask :=
  ⟨r.id, some r.asset_id, r.symbol, r.start_date, r.end_date, r.status,
   r.attempts, r.retry_after⟩

/-- `BackfillOrchestrator.get_pending_backfills`. -/
def get_pending_backfills (now : ℤ) (table : List QueueRow) :
    List BackfillTask :=
  (pendingRows now table).map rowToTask

/-- The failed `ProcessingResult` that `run` appends for a task that has
exceeded the retry budget (lines 440-448 of the source). -/
def permanentlyFailedResult (task : BackfillTask) : ProcessingResult :=
  ⟨task.symbol, false, 0, 0, 0, 0,
   some s!"Exceeded maximum retry attempts ({task.attempts}/5)"⟩

/-- `BackfillOrchestrator._mark_permanently_failed`, as the update it
applies to the task's queue row (`status='failed'`, the permanent-failure
message, no attempts increment). -/
def mark_permanently_failed (row : QueueRow) : QueueRow :=
  { row with
    status := "failed"
    error_message := some "Permanently failed: exceeded maximum retry attempts (5)" }

/-- One iteration of `run`'s processing loop (shutdown not requested),
given the dispatch function `proc` standing for
`self.symbol_processor.process`.  Returns the `ProcessingResult` appended
to `self.processing_results` and whether `proc` was invoked. -/
def runStep (proc : BackfillTask → ProcessingResult) (task : BackfillTask) :
    ProcessingResult × Bool :=
  if 5 ≤ task.attempts then (permanentlyFailedResult task, false)
  else (proc task, true)

/-- `run`'s processing loop over the dequeued tasks (shutdown not
requested): the accumulated `processing_results` list and the ids of the
tasks actually dispatched to `SymbolProcessor.process`. -/
def runLoop (proc : BackfillTask → ProcessingResult) :
    List BackfillTask → List ProcessingResult × List ℕ
  | [] => ([], [])
  | task :: rest =>
      let step := runStep proc task
      let tail := runLoop proc rest
      (step.1 :: tail.1, (if step.2 then [task.id] else []) ++ tail.2)

/-- `BackfillOrchestrator.generate_report`.  `start_time`/`end_time` are
the orchestrator's recorded times (`None` until set); `now` stands for the
`datetime.now()` fallback. -/
def generate_report (results : List ProcessingResult)
    (start_time end_time : Option ℤ) (now : ℤ) : BackfillReport :=
  if results.length = 0 then
    ⟨0, 0, 0, 0, 0, start_time.getD now, end_time.getD now, []⟩
  else
    let total_symbols := results.length
    let successful := (results.filter (fun r => r.success)).length
    let failed := (results.filter (fun r => !r.success)).length
    let total_records_inserted := (results.map (fun r => r.records_inserted)).sum
    let total_duration_seconds : ℚ :=
      match start_time, end_time with
      | some s, some e => ((e - s : ℤ) : ℚ)
      | _, _ => (results.map (fun r => r.duration_seconds)).sum
    let failed_symbols := (results.filter (fun r => !r.success)).map (fun r => r.symbol)
    ⟨total_symbols, successful, failed, total_records_inserted,
     total_duration_seconds, start_time.getD now, end_time.getD now,
     failed_symbols⟩

/-! ## statistics_tracker.py -/

/-- `collections.deque(maxlen=100)` append: when full, the oldest (front)
entry is discarded. -/
def dequeAppend (maxlen : ℕ) (xs : List ℚ) (x : ℚ) : List ℚ :=
  let ys := xs ++ [x]
  ys.drop (ys.length - maxlen)

/-- The in-memory state of `StatisticsTracker` (database handle omitted).
`active_cycles` is the `_active_cycles` dict as an association list keyed
by cycle id. -/
structure StatisticsTracker where
  cycle_durations : List ℚ
  total_cycles : ℕ
  successful_cycles : ℕ
  active_cycles : List (String × ℤ)
deriving Repr, DecidableEq

/-- The keys of `_active_cycles`. -/
def StatisticsTracker.activeIds (st : StatisticsTracker) : List String :=
  st.active_cycles.map Prod.fst

/-- `StatisticsTracker.record_cycle_end`: `ValueError` when the id has no
unclosed start, otherwise the updated state (the raise happens before any
mutation, so in the error case the tracker is untouched). -/
def record_cycle_end (st : StatisticsTracker) (cycle_id : String)
    (success : Bool) (duration : ℚ) : Except String StatisticsTracker :=
  if cycle_id ∈ st.activeIds then
    .ok { cycle_durations := dequeAppend 100 st.cycle_durations duration
          total_cycles := st.total_cycles + 1
          successful_cycles :=
            st.successful_cycles + (if success then 1 else 0)
          active_cycles :=
            st.active_cycles.filter (fun p => p.1 ≠ cycle_id) }
  else
    .error s!"Unknown cycle_id: {cycle_id}. Call record_cycle_start() first."

/-- Spec-side definition, for comparison with `pendingWhere`: the
selection rule exactly as worded ("status is 'pending', or 'failed' with
attempts < 5, or 'rate_limited' with retry_after ≤ now"). -/
def claimedEligible (now : ℤ) (r : QueueRow) : Prop :=
  r.status = "pending"
  ∨ (r.status = "failed" ∧ r.attempts < 5)
  ∨ (r.status = "rate_limited" ∧ ∃ t, r.retry_after = some t ∧ t ≤ now)

/-- A `rate_limited` queue row whose `retry_after` was never set. -/
def nullRetryRow : QueueRow :=
  ⟨1, 1, "AAPL", 0, 365, "rate_limited", 2, 5, none, none, 0⟩

/-! ## Claim theorems -/

/-- C4: for every attempt number n in 1..5, the exponential backoff delay
computed by `RateLimiter.handle_rate_limit_error(n)` and by
`SymbolProcessor._calculate_backoff_delay(n)` equals `5 * 2^(n-1)` seconds;
the sequence for attempts 1..5 is exactly [5, 10, 20, 40, 80]. -/
theorem backoff_delay_is_5_times_pow2 (n : ℕ) (_h1 : 1 ≤ n) (_h5 : n ≤ 5) :
    handle_rate_limit_error n = 5 * 2 ^ (n - 1)
    ∧ calculate_backoff_delay n = 5 * 2 ^ (n - 1)
    ∧ handle_rate_limit_error n = calculate_backoff_delay n
    ∧ [1, 2, 3, 4, 5].map handle_rate_limit_error = [5, 10, 20, 40, 80]
    ∧ [1, 2, 3, 4, 5].map calculate_backoff_delay = [5, 10, 20, 40, 80] :=
  ⟨rfl, rfl, rfl, by decide, by decide⟩

theorem backoff_delay_is_5_times_pow2_witness :
    handle_rate_limit_error 3 = 5 * 2 ^ (3 - 1)
    ∧ calculate_backoff_delay 3 = 5 * 2 ^ (3 - 1)
    ∧ handle_rate_limit_error 3 = calculate_backoff_delay 3
    ∧ [1, 2, 3, 4, 5].map handle_rate_limit_error = [5, 10, 20, 40, 80]
    ∧ [1, 2, 3, 4, 5].map calculate_backoff_delay = [5, 10, 20, 40, 80] :=
  backoff_delay_is_5_times_pow2 3 (by decide) (by decide)

/-- C7 counterexample: a timestamp exactly 3600 seconds old is *removed*
by `_cleanup_old_timestamps` (the filter keeps only `ts > now - 3600`),
so "every timestamp at most 3600 seconds old is retained" fails at
`now = 3600`, `request_timestamps = [0]`. -/
theorem cleanup_removes_boundary_timestamp :
    cleanup_old_timestamps 3600 [0] = [] ∧ (3600 : ℚ) - 0 ≤ 3600 := by
  constructor
  · simp [cleanup_old_timestamps]
  · norm_num

/-- C7 amended: `_cleanup_old_timestamps(now)` leaves in
`request_timestamps` exactly those timestamps strictly less than 3600
seconds old relative to `now` — every timestamp 3600 or more seconds old
is removed and every other timestamp is retained, preserving order. -/
theorem cleanup_old_timestamps_keeps_young_exactly (now : ℚ) (l : List ℚ) :
    (cleanup_old_timestamps now l).Sublist l
    ∧ ∀ ts : ℚ, ts ∈ cleanup_old_timestamps now l ↔ ts ∈ l ∧ now - ts < 3600 := by
  constructor
  · exact List.filter_sublist l
  · intro ts
    rw [cleanup_old_timestamps, List.mem_filter]
    simp only [decide_eq_true_eq]
    constructor
    · rintro ⟨hm, hlt⟩; exact ⟨hm, by linarith⟩
    · rintro ⟨hm, hlt⟩; exact ⟨hm, by linarith⟩

/-- C8: `calculate_completeness(expected, actual)` returns 0 when
`expected ≤ 0` and `min(actual/expected*100, 100)` otherwise; in
particular the four quoted values. -/
theorem calculate_completeness_spec (e a : ℤ) :
    (e ≤ 0 → calculate_completeness e a = 0)
    ∧ (0 < e →
        calculate_completeness e a = min ((a : ℚ) / (e : ℚ) * 100) 100)
    ∧ calculate_completeness 252 252 = 100
    ∧ calculate_completeness 252 300 = 100
    ∧ calculate_completeness 0 100 = 0
    ∧ calculate_completeness 252 126 = 50 := by
  refine ⟨fun h => ?_, fun h => ?_, ?_, ?_, ?_, ?_⟩
  · rw [calculate_completeness, if_pos h]
  · rw [calculate_completeness, if_neg (by omega)]
  · norm_num [calculate_completeness]
  · norm_num [calculate_completeness]
  · norm_num [calculate_completeness]
  · norm_num [calculate_completeness]

theorem calculate_completeness_spec_witness :
    calculate_completeness (-3) 7 = 0
    ∧ calculate_completeness 4 1 = min ((1 : ℚ) / (4 : ℚ) * 100) 100 :=
  ⟨(calculate_completeness_spec (-3) 7).1 (by decide),
   (calculate_completeness_spec 4 1).2.1 (by decide)⟩

/-- C10: a price record whose timestamp is the empty string (falsy, though
not `None`) is reported as a missing required field: validation fails with
"Missing timestamp", only missing-required-field errors can appear, and no
value-range/timestamp-parsing/OHLC check runs (the result does not depend
on the timestamp parser at all). -/
theorem empty_timestamp_is_missing (parses parses2 : String → Bool)
    (p : PriceData) (h : p.timestamp = some "") :
    (validate_price_record parses p).valid = false
    ∧ "Missing timestamp" ∈ (validate_price_record parses p).errors
    ∧ validate_price_record parses p = validate_price_record parses2 p
    ∧ ∀ e ∈ (validate_price_record parses p).errors,
        e = "Missing timestamp" ∨ e = "Missing close price"
        ∨ e = "Missing volume" := by
  have hf : timestampFalsy p = true := by simp [timestampFalsy, h]
  by_cases hc : p.close = none <;> by_cases hv : p.volume = none <;>
    simp [validate_price_record, hf, hc, hv]

theorem empty_timestamp_is_missing_witness :
    (validate_price_record (fun _ => true)
        ⟨some "", none, none, none, some 103, some 1000⟩).valid = false
    ∧ "Missing timestamp" ∈ (validate_price_record (fun _ => true)
        ⟨some "", none, none, none, some 103, some 1000⟩).errors
    ∧ validate_price_record (fun _ => true)
        ⟨some "", none, none, none, some 103, some 1000⟩
      = validate_price_record (fun _ => false)
        ⟨some "", none, none, none, some 103, some 1000⟩
    ∧ ∀ e ∈ (validate_price_record (fun _ => true)
        ⟨some "", none, none, none, some 103, some 1000⟩).errors,
        e = "Missing timestamp" ∨ e = "Missing close price"
        ∨ e = "Missing volume" :=
  empty_timestamp_is_missing (fun _ => true) (fun _ => false)
    ⟨some "", none, none, none, some 103, some 1000⟩ rfl

/-- C6: the five OHLC inequalities are applied exactly when open, high and
low are all present and non-zero.  Conjuncts: the quoted invalid record
(high=95, low=99, open=100, close=103) fails with errors naming both high
and low; the quoted record with absent OHLC fields passes; a zero value
skips the OHLC check; and when open/high/low are present the validation
errors are exactly the non-OHLC errors (computed with `open` absent)
followed by the OHLC errors. -/
theorem ohlc_checks_gated_on_presence :
    (validate_price_record (fun _ => true)
        ⟨some "2024-01-15T10:00:00", some 100, some 95, some 99,
         some 103, some 1000000⟩
      = ⟨false, ["High (95) must be >= low (99)",
                 "High (95) must be >= open (100)",
                 "High (95) must be >= close (103)"]⟩)
    ∧ (validate_price_record (fun _ => true)
        ⟨some "2024-01-15T10:00:00", none, none, none, some 103, some 1000⟩
      = ⟨true, []⟩)
    ∧ (∀ o h l c : ℚ, o = 0 ∨ h = 0 ∨ l = 0 →
        ohlcConsistencyErrors o h l c = [])
    ∧ (∀ (parses : String → Bool) (p : PriceData) (o h l c : ℚ),
        p.timestamp ≠ none → p.timestamp ≠ some "" →
        p.«open» = some o → p.high = some h → p.low = some l →
        p.close = some c → p.volume ≠ none →
        (validate_price_record parses p).errors
          = (validate_price_record parses { p with «open» := none }).errors
            ++ ohlcConsistencyErrors o h l c) := by
  refine ⟨by decide, by decide, ?_, ?_⟩
  · intro o h l c hz
    rw [ohlcConsistencyErrors, if_pos hz]
  · intro parses p o h l c ht1 ht2 ho hh hl hc hv
    rcases p with ⟨pt, po, ph, pl, pc, pv⟩
    cases pt with
    | none => exact absurd rfl ht1
    | some s =>
      have hs : ¬s = "" := fun h => ht2 (by simp [h])
      cases pv with
      | none => exact absurd rfl hv
      | some v =>
        simp only at ho hh hl hc
        subst ho hh hl hc
        simp [validate_price_record, timestampFalsy, hs]

theorem ohlc_checks_gated_on_presence_witness :
    ohlcConsistencyErrors 0 95 99 103 = []
    ∧ (validate_price_record (fun _ => true)
        ⟨some "2024-01-15T10:00:00", some 100, some 95, some 99,
         some 103, some 1000000⟩).errors
      = (validate_price_record (fun _ => true)
          ⟨some "2024-01-15T10:00:00", none, some 95, some 99,
           some 103, some 1000000⟩).errors
        ++ ohlcConsistencyErrors 100 95 99 103 :=
  ⟨ohlc_checks_gated_on_presence.2.2.1 0 95 99 103 (Or.inl rfl),
   ohlc_checks_gated_on_presence.2.2.2 (fun _ => true)
     ⟨some "2024-01-15T10:00:00", some 100, some 95, some 99,
      some 103, some 1000000⟩ 100 95 99 103
     (by decide) (by decide) rfl rfl rfl rfl (by decide)⟩

/-- C5: `generate_report` satisfies `total_symbols = successful + failed`,
`total_records_inserted = Σ records_inserted`, `failed_symbols` lists
exactly the symbols of the unsuccessful results, and on the quoted
three-result batch yields (3, 2, 1, 498, ["BAD"]). -/
theorem generate_report_invariants (results : List ProcessingResult)
    (st et : Option ℤ) (now : ℤ) :
    (generate_report results st et now).total_symbols
      = (generate_report results st et now).successful
        + (generate_report results st et now).failed
    ∧ (generate_report results st et now).total_records_inserted
      = (results.map (fun r => r.records_inserted)).sum
    ∧ (generate_report results st et now).failed_symbols
      = (results.filter (fun r => !r.success)).map (fun r => r.symbol)
    ∧ generate_report
        [⟨"AAPL", true, 250, 0, 100, 1, none⟩,
         ⟨"MSFT", true, 248, 0, 100, 1, none⟩,
         ⟨"BAD", false, 0, 0, 0, 1, some "fetch failed"⟩]
        (some 0) (some 60) 0
      = ⟨3, 2, 1, 498, 60, 0, 60, ["BAD"]⟩ := by
  refine ⟨?_, ?_, ?_, by decide⟩
  · by_cases h : results.length = 0
    · simp [generate_report, h]
    · simp only [generate_report, if_neg h]
      exact List.length_eq_length_filter_add
        (fun r : ProcessingResult => r.success)
  · by_cases h : results.length = 0
    · rw [List.length_eq_zero] at h
      subst h
      simp [generate_report]
    · simp [generate_report, h]
  · by_cases h : results.length = 0
    · rw [List.length_eq_zero] at h
      subst h
      simp [generate_report]
    · simp [generate_report, h]

/-- `deque(maxlen=100)` append keeps a suffix of the appended list, ends
with the new element, and is bounded by 100. -/
theorem dequeAppend_props (xs : List ℚ) (x : ℚ) :
    (dequeAppend 100 xs x).IsSuffix (xs ++ [x])
    ∧ (dequeAppend 100 xs x).getLast? = some x
    ∧ (dequeAppend 100 xs x).length = min (xs.length + 1) 100 := by
  refine ⟨?_, ?_, ?_⟩
  · rw [dequeAppend]
    exact List.drop_suffix _ _
  · have hn : (xs ++ [x]).length - 100 ≤ xs.length := by
      simp only [List.length_append, List.length_cons, List.length_nil]
      omega
    rw [dequeAppend]
    rw [List.drop_append_of_le_length hn]
    exact List.getLast?_concat _
  · simp only [dequeAppend, List.length_drop, List.length_append,
      List.length_cons, List.length_nil]
    omega

/-- C9: `record_cycle_end(id, success, duration)` raises exactly when `id`
has no unclosed `record_cycle_start` (the raise happens before any state
mutation, so the error case leaves `total_cycles`, `successful_cycles` and
the duration FIFO untouched); on an open id it closes the cycle,
increments `total_cycles`, increments `successful_cycles` exactly when
`success`, and appends the duration to a FIFO that keeps at most the 100
most recent entries. -/
theorem record_cycle_end_spec (st : StatisticsTracker) (cid : String)
    (success : Bool) (dur : ℚ) :
    (cid ∉ st.activeIds →
      record_cycle_end st cid success dur
        = .error s!"Unknown cycle_id: {cid}. Call record_cycle_start() first.")
    ∧ (cid ∈ st.activeIds → ∃ st',
        record_cycle_end st cid success dur = .ok st'
        ∧ st'.total_cycles = st.total_cycles + 1
        ∧ st'.successful_cycles
            = st.successful_cycles + (if success then 1 else 0)
        ∧ cid ∉ st'.activeIds
        ∧ st'.cycle_durations.IsSuffix (st.cycle_durations ++ [dur])
        ∧ st'.cycle_durations.getLast? = some dur
        ∧ (st.cycle_durations.length ≤ 100 →
            st'.cycle_durations.length ≤ 100)) := by
  constructor
  · intro h
    rw [record_cycle_end, if_neg h]
  · intro h
    rw [record_cycle_end, if_pos h]
    refine ⟨_, rfl, rfl, rfl, ?_, (dequeAppend_props _ _).1,
      (dequeAppend_props _ _).2.1, fun hlen => ?_⟩
    · simp only [StatisticsTracker.activeIds, List.mem_map, List.mem_filter]
      rintro ⟨q, ⟨_, hq⟩, hq1⟩
      simp only [decide_eq_true_eq] at hq
      exact hq hq1
    · have := (dequeAppend_props st.cycle_durations dur).2.2
      simp only [StatisticsTracker.cycle_durations] at *
      omega

theorem record_cycle_end_spec_witness :
    record_cycle_end ⟨[], 0, 0, [("a", 0)]⟩ "b" true 2
      = .error "Unknown cycle_id: b. Call record_cycle_start() first."
    ∧ ∃ st', record_cycle_end ⟨[], 0, 0, [("a", 0)]⟩ "a" true 2 = .ok st'
        ∧ st'.total_cycles = 0 + 1
        ∧ st'.successful_cycles = 0 + (if true then 1 else 0)
        ∧ "a" ∉ st'.activeIds
        ∧ st'.cycle_durations.IsSuffix ([] ++ [2])
        ∧ st'.cycle_durations.getLast? = some 2
        ∧ (List.length ([] : List ℚ) ≤ 100 →
            st'.cycle_durations.length ≤ 100) :=
  ⟨(record_cycle_end_spec ⟨[], 0, 0, [("a", 0)]⟩ "b" true 2).1 (by decide),
   (record_cycle_end_spec ⟨[], 0, 0, [("a", 0)]⟩ "a" true 2).2 (by decide)⟩

/-- C1: `SymbolProcessor.process` never lets an exception escape (every
collaborator behaviour yields `.ok`), and whenever an error arises while
processing — fetch raising (timeout, network error, HTTP 429, database or
any other exception), fetch returning no data, or the storage step
raising — the returned `ProcessingResult` has `success = false`,
`records_inserted = 0` and a non-null `error_message`. -/
theorem process_confines_all_errors (parses : String → Bool)
    (env : ProcessEnv) (task : BackfillTask) :
    (∃ r, process parses env task = .ok r)
    ∧ (isErrorEnv parses env → ∃ r, process parses env task = .ok r
        ∧ r.success = false ∧ r.records_inserted = 0
        ∧ r.error_message.isSome) := by
  have handler_shape : ∀ e, (processHandler env task e).success = false
      ∧ (processHandler env task e).records_inserted = 0
      ∧ (processHandler env task e).error_message.isSome := by
    intro e
    cases e with
    | timeout m => exact ⟨rfl, rfl, rfl⟩
    | requestError status m =>
      by_cases hs : status = some 429 <;>
        simp [processHandler, hs, failedProcessingResult]
    | pgError m => exact ⟨rfl, rfl, rfl⟩
    | otherError m => exact ⟨rfl, rfl, rfl⟩
  have total : ∀ env2 : ProcessEnv, ∃ r,
      process parses env2 task = .ok r := by
    intro env2
    rw [process]
    cases processBody parses env2 task with
    | ok r => exact ⟨r, rfl⟩
    | error e => exact ⟨_, rfl⟩
  refine ⟨total env, fun herr => ?_⟩
  obtain ⟨fetch, store, dur⟩ := env
  cases fetch with
  | raises e =>
    exact ⟨_, rfl, (handler_shape e).1, (handler_shape e).2.1,
      (handler_shape e).2.2⟩
  | noData =>
    exact ⟨_, rfl, rfl, rfl, rfl⟩
  | data prices =>
    obtain ⟨hvp, e, he⟩ := herr
    subst he
    have heq : process parses ⟨.data prices, .raises e, dur⟩ task
        = .ok (processHandler ⟨.data prices, .raises e, dur⟩ task e)
      ∨ process parses ⟨.data prices, .raises e, dur⟩ task
        = .ok (failedProcessingResult task.symbol dur
            s!"Database error storing {task.symbol}: {PyExc.msgOf e}") := by
      cases e <;> simp [process, processBody, hvp, PyExc.msgOf]
    rcases heq with heq | heq
    · exact ⟨_, heq, (handler_shape e).1, (handler_shape e).2.1,
        (handler_shape e).2.2⟩
    · exact ⟨_, heq, rfl, rfl, rfl⟩

theorem process_confines_all_errors_witness :
    isErrorEnv (fun _ => true) ⟨.noData, .ok 0, 1⟩
    ∧ ∃ r, process (fun _ => true) ⟨.noData, .ok 0, 1⟩
          ⟨1, some 1, "AAPL", 0, 365, "pending", 0, none⟩ = .ok r
        ∧ r.success = false ∧ r.records_inserted = 0
        ∧ r.error_message.isSome :=
  ⟨trivial,
   (process_confines_all_errors (fun _ => true) ⟨.noData, .ok 0, 1⟩
     ⟨1, some 1, "AAPL", 0, 365, "pending", 0, none⟩).2 trivial⟩

/-- C3: a task dequeued with `attempts ≥ 5` is marked permanently failed
(terminal `failed` with the distinguishing message) and a failed
`ProcessingResult` is appended, and `SymbolProcessor.process` is never
invoked for it: the loop step ignores the dispatch function, reports
`invoked = false`, and the loop does not add the task's id to the list of
dispatched tasks. -/
theorem exhausted_task_marked_permanently_failed
    (proc proc2 : BackfillTask → ProcessingResult) (task : BackfillTask)
    (h : 5 ≤ task.attempts) :
    runStep proc task = (permanentlyFailedResult task, false)
    ∧ runStep proc task = runStep proc2 task
    ∧ (permanentlyFailedResult task).success = false
    ∧ (permanentlyFailedResult task).records_inserted = 0
    ∧ (permanentlyFailedResult task).error_message
        = some s!"Exceeded maximum retry attempts ({task.attempts}/5)"
    ∧ (∀ row : QueueRow, (mark_permanently_failed row).status = "failed"
        ∧ (mark_permanently_failed row).error_message
            = some "Permanently failed: exceeded maximum retry attempts (5)"
        ∧ (mark_permanently_failed row).attempts = row.attempts)
    ∧ ∀ rest, runLoop proc (task :: rest)
        = (permanentlyFailedResult task :: (runLoop proc rest).1,
           (runLoop proc rest).2) := by
  have hstep : runStep proc task = (permanentlyFailedResult task, false) := by
    rw [runStep, if_pos h]
  refine ⟨hstep, ?_, rfl, rfl, rfl, fun row => ⟨rfl, rfl, rfl⟩, fun rest => ?_⟩
  · rw [hstep, runStep, if_pos h]
  · rw [runLoop, hstep]
    simp

theorem exhausted_task_marked_permanently_failed_witness :
    runStep (fun _ => ⟨"X", true, 7, 0, 0, 0, none⟩)
        ⟨3, some 3, "BAD", 0, 365, "failed", 5, none⟩
      = (permanentlyFailedResult ⟨3, some 3, "BAD", 0, 365, "failed", 5, none⟩,
         false)
    ∧ (permanentlyFailedResult
        ⟨3, some 3, "BAD", 0, 365, "failed", 5, none⟩).success = false :=
  ⟨(exhausted_task_marked_permanently_failed
      (fun _ => ⟨"X", true, 7, 0, 0, 0, none⟩)
      (fun _ => ⟨"X", true, 7, 0, 0, 0, none⟩)
      ⟨3, some 3, "BAD", 0, 365, "failed", 5, none⟩ (by decide)).1,
   (exhausted_task_marked_permanently_failed
      (fun _ => ⟨"X", true, 7, 0, 0, 0, none⟩)
      (fun _ => ⟨"X", true, 7, 0, 0, 0, none⟩)
      ⟨3, some 3, "BAD", 0, 365, "failed", 5, none⟩ (by decide)).2.2.1⟩

/-- The `WHERE` clause, read as a proposition. -/
theorem pendingWhere_iff (now : ℤ) (r : QueueRow) :
    pendingWhere now r = true ↔
      (r.status = "pending"
       ∨ (r.status = "failed" ∧ r.attempts < r.max_attempts)
       ∨ (r.status = "rate_limited"
           ∧ (r.retry_after = none
              ∨ ∃ t, r.retry_after = some t ∧ t ≤ now))) := by
  cases hr : r.retry_after <;>
    simp [pendingWhere, hr, or_assoc]

/-- C2 counterexample: a `rate_limited` task whose `retry_after` is NULL
is selected by `get_pending_backfills` (the query admits
`retry_after IS NULL`), although the claim's selection rule — pending, or
failed with attempts < 5, or rate_limited with `retry_after ≤ now` — does
not cover it. -/
theorem pending_selection_claim_counterexample :
    get_pending_backfills 0 [nullRetryRow] = [rowToTask nullRetryRow]
    ∧ ¬ claimedEligible 0 nullRetryRow := by
  constructor
  · rw [get_pending_backfills, pendingRows]
    have : List.filter (pendingWhere 0) [nullRetryRow] = [nullRetryRow] := by
      decide
    rw [this, List.mergeSort_singleton]
    rfl
  · rintro (h | ⟨h, -⟩ | ⟨-, t, ht, -⟩)
    · exact absurd h (by decide)
    · exact absurd h (by decide)
    · exact Option.noConfusion ht

/-- C2 amended: provided every row carries the schema's retry budget
`max_attempts = 5`, `get_pending_backfills` selects exactly the tasks
whose status is `pending`, or `failed` with attempts < 5, or
`rate_limited` with `retry_after` unset **or** ≤ now (completed and
in_progress tasks are never selected), ordered by creation time, oldest
first. -/
theorem get_pending_backfills_selects_eligible (now : ℤ)
    (table : List QueueRow) (hmax : ∀ r ∈ table, r.max_attempts = 5) :
    (∀ r : QueueRow, r ∈ pendingRows now table ↔ r ∈ table ∧
        (claimedEligible now r
         ∨ (r.status = "rate_limited" ∧ r.retry_after = none)))
    ∧ (pendingRows now table).Pairwise
        (fun a b => a.created_at ≤ b.created_at)
    ∧ get_pending_backfills now table = (pendingRows now table).map rowToTask
    ∧ ∀ r ∈ table, (r.status = "completed" ∨ r.status = "in_progress") →
        r ∉ pendingRows now table := by
  have hmem : ∀ r : QueueRow, r ∈ pendingRows now table ↔ r ∈ table ∧
      (claimedEligible now r
       ∨ (r.status = "rate_limited" ∧ r.retry_after = none)) := by
    intro r
    rw [pendingRows, List.mem_mergeSort, List.mem_filter]
    constructor
    · rintro ⟨hm, hw⟩
      refine ⟨hm, ?_⟩
      rcases (pendingWhere_iff now r).mp hw with h | ⟨h1, h2⟩ | ⟨h1, h2⟩
      · exact Or.inl (Or.inl h)
      · exact Or.inl (Or.inr (Or.inl ⟨h1, hmax r hm ▸ h2⟩))
      · rcases h2 with h2 | h2
        · exact Or.inr ⟨h1, h2⟩
        · exact Or.inl (Or.inr (Or.inr ⟨h1, h2⟩))
    · rintro ⟨hm, hcl | ⟨h1, h2⟩⟩
      · refine ⟨hm, (pendingWhere_iff now r).mpr ?_⟩
        rcases hcl with h | ⟨h1, h2⟩ | ⟨h1, h2⟩
        · exact Or.inl h
        · exact Or.inr (Or.inl ⟨h1, hmax r hm ▸ h2⟩)
        · exact Or.inr (Or.inr ⟨h1, Or.inr h2⟩)
      · exact ⟨hm, (pendingWhere_iff now r).mpr
          (Or.inr (Or.inr ⟨h1, Or.inl h2⟩))⟩
  have hsorted : (pendingRows now table).Pairwise
      (fun a b : QueueRow =>
        (decide (a.created_at ≤ b.created_at)) = true) :=
    List.sorted_mergeSort
      (fun a b c hab hbc => by
        simp only [decide_eq_true_eq] at *; omega)
      (fun a b => by
        simp only [Bool.or_eq_true, decide_eq_true_eq]; omega)
      (table.filter (pendingWhere now))
  refine ⟨hmem, hsorted.imp (fun h => by simpa using h), rfl, ?_⟩
  intro r hr hst hmemr
  rcases ((hmem r).mp hmemr).2 with hcl | ⟨h1, -⟩
  · rcases hcl with h | ⟨h, -⟩ | ⟨h, -⟩ <;> rcases hst with hs | hs <;>
      rw [hs] at h <;> exact absurd h (by decide)
  · rcases hst with hs | hs <;> rw [hs] at h1 <;> exact absurd h1 (by decide)

theorem get_pending_backfills_selects_eligible_witness :
    (nullRetryRow ∈ pendingRows 0 [nullRetryRow] ↔
      nullRetryRow ∈ [nullRetryRow] ∧
        (claimedEligible 0 nullRetryRow
         ∨ (nullRetryRow.status = "rate_limited"
            ∧ nullRetryRow.retry_after = none)))
    ∧ (pendingRows 0 [nullRetryRow]).Pairwise
        (fun a b => a.created_at ≤ b.created_at) :=
  ⟨(get_pending_backfills_selects_eligible 0 [nullRetryRow]
      (by decide)).1 nullRetryRow,
   (get_pending_backfills_selects_eligible 0 [nullRetryRow]
      (by decide)).2.1⟩

end MyPrecious
